import Mathlib

/-!
Verification development for the christmas-tree scene.

The definitions below are a shallow embedding of the gesture signal
processor, the per-class formation animator steps, the procedural tree
layout generator, the camera-spin wiring, and the login endpoint gate.
Scalar quantities carried as JavaScript numbers are modelled over the
rationals wherever the source only uses field arithmetic and comparisons;
the fairy-light emissive derivation, which uses trigonometric functions,
is modelled over the reals.
-/

/-- Scene mode: the shared state toggled between scattered and formed. -/
inductive SceneMode
  | CHAOS
  | FORMED
deriving DecidableEq, Repr

/-- A 3D vector, as used by the per-object position records. -/
structure Vec3 where
  x : ℚ
  y : ℚ
  z : ℚ
deriving DecidableEq, Repr

/-- THREE.Vector3.lerp: v := v + (target - v) * alpha, componentwise, no
clamping of alpha. -/
def Vec3.lerp (v target : Vec3) (alpha : ℚ) : Vec3 :=
  ⟨v.x + (target.x - v.x) * alpha,
   v.y + (target.y - v.y) * alpha,
   v.z + (target.z - v.z) * alpha⟩

/-- Squared Euclidean distance between two vectors. -/
def distSq (a b : Vec3) : ℚ :=
  (a.x - b.x) ^ 2 + (a.y - b.y) ^ 2 + (a.z - b.z) ^ 2

/-- CONFIG.tree.height. -/
def treeHeight : ℚ := 32

/-- CONFIG.tree.radius. -/
def treeRadius : ℚ := 14

/-- getTreePosition: y = random * h - h / 2, with u1 the random draw. -/
def treeY (u1 : ℚ) : ℚ := u1 * treeHeight - treeHeight / 2

/-- getTreePosition: normalizedY = (y + h / 2) / h. -/
def treeNormalizedY (u1 : ℚ) : ℚ := (treeY u1 + treeHeight / 2) / treeHeight

/-- Local cone radius at normalized height t: rBase * (1 - t). -/
def coneRadius (t : ℚ) : ℚ := treeRadius * (1 - t)

/-- getTreePosition: currentRadius = rBase * (1 - normalizedY). -/
def treeLocalRadius (u1 : ℚ) : ℚ := coneRadius (treeNormalizedY u1)

/-- getTreePosition: r = random * currentRadius, with u3 the radius draw. -/
def treeSampledRadius (u1 u3 : ℚ) : ℚ := u3 * treeLocalRadius u1

/-- One gesture classification: results.gestures[i][0], carrying a
categoryName and a score. -/
structure Classification where
  categoryName : String
  score : ℚ
deriving DecidableEq, Repr

/-- Per-frame recognizer output as consumed by predictWebcam: the list of
top classifications per hand, the first landmark x-coordinate per hand,
and the performance.now timestamp of the frame. -/
structure GestureFrame where
  gestures : List Classification
  landmarkXs : List ℚ
  now : ℚ
deriving DecidableEq, Repr

/-- The rolling tracking state closed over by predictWebcam: lastX and
lastTimestamp, both nullable. -/
structure TrackState where
  lastX : Option ℚ
  lastTimestamp : Option ℚ
deriving DecidableEq, Repr

/-- Everything one predictWebcam frame emits: the mode command passed to
onGesture (if any), the value passed to onMove (none when onMove is not
called this frame), and the updated tracking state. -/
structure FrameOutput where
  modeCommand : Option SceneMode
  move : Option ℚ
  state : TrackState
deriving DecidableEq, Repr

/-- A classification qualifies for rotation control when its label is
Open_Palm or Closed_Fist and its score is strictly above 0.4
(isClosedFist or isOpenPalm in predictWebcam). -/
def Qualifies (c : Classification) : Prop :=
  (c.categoryName = "Open_Palm" ∨ c.categoryName = "Closed_Fist") ∧
    (0.4 : ℚ) < c.score

instance (c : Classification) : Decidable (Qualifies c) := by
  unfold Qualifies
  infer_instance

/-- The mode command emitted for the first classification: inside
predictWebcam, when score is strictly above 0.4, Open_Palm emits CHAOS
and Closed_Fist emits FORMED; any other label emits nothing. -/
def modeCommandOf (c : Classification) : Option SceneMode :=
  if (0.4 : ℚ) < c.score then
    if c.categoryName = "Open_Palm" then some SceneMode.CHAOS
    else if c.categoryName = "Closed_Fist" then some SceneMode.FORMED
    else none
  else none

/-- The raw rotation velocity: (-deltaX / deltaT) * 280 with
deltaT = max(now - prevTimestamp, 1). -/
def rawVelocity (currentX prevX now prevT : ℚ) : ℚ :=
  -(currentX - prevX) / max (now - prevT) 1 * 280

/-- The deadzone applied before onMove: keep the velocity only when its
magnitude is strictly above 0.0002, else emit 0. -/
def applyDeadzone (v : ℚ) : ℚ :=
  if (0.0002 : ℚ) < |v| then v else 0

/-- One step of the predictWebcam gesture branch: given the tracking state
and a recognizer frame, produce the emitted mode command, the onMove value
and the new tracking state, exactly following the control flow of the
source. -/
def processFrame (st : TrackState) (f : GestureFrame) : FrameOutput :=
  match f.gestures with
  | [] => ⟨none, some 0, ⟨none, none⟩⟩
  | c :: _ =>
    let cmd := modeCommandOf c
    match f.landmarkXs with
    | [] => ⟨cmd, none, st⟩
    | currentX :: _ =>
      match st.lastX, st.lastTimestamp with
      | some prevX, some prevT =>
        if Qualifies c then
          ⟨cmd, some (applyDeadzone (rawVelocity currentX prevX f.now prevT)),
           ⟨some currentX, some f.now⟩⟩
        else
          ⟨cmd, some 0, ⟨some currentX, some f.now⟩⟩
      | _, _ => ⟨cmd, some 0, ⟨some currentX, some f.now⟩⟩

/-- How a mode command is consumed by onGesture/setSceneState: a command
overwrites the mode, no command leaves it unchanged. -/
def applyCommand (cmd : Option SceneMode) (mode : SceneMode) : SceneMode :=
  cmd.getD mode

/-- PhotoOrnaments blend rate: delta is multiplied by 0.8 * weight when
FORMED, else by 0.5. -/
def photoRate (mode : SceneMode) (weight : ℚ) : ℚ :=
  if mode = SceneMode.FORMED then 0.8 * weight else 0.5

/-- PhotoOrnaments per-frame position blend. -/
def photoPosStep (mode : SceneMode) (weight : ℚ) (c t : Vec3) (δ : ℚ) : Vec3 :=
  Vec3.lerp c t (δ * photoRate mode weight)

/-- ChristmasElements per-frame position blend: lerp(target, delta * 1.5). -/
def elementsPosStep (c t : Vec3) (δ : ℚ) : Vec3 :=
  Vec3.lerp c t (δ * 1.5)

/-- FairyLights per-frame position blend: lerp(target, delta * 2.0). -/
def fairyPosStep (c t : Vec3) (δ : ℚ) : Vec3 :=
  Vec3.lerp c t (δ * 2.0)

/-- One entry of the PhotoOrnaments data pool, as built in its useMemo. -/
structure PhotoObj where
  chaosPos : Vec3
  targetPos : Vec3
  scale : ℚ
  weight : ℚ
  textureIndex : Nat
  borderColor : String
  currentPos : Vec3
  chaosRotation : Vec3
  rotationSpeed : Vec3
  wobbleOffset : ℚ
  wobbleSpeed : ℚ
deriving DecidableEq, Repr

/-- One entry of the ChristmasElements data pool. -/
structure ElementsObj where
  kind : Nat
  chaosPos : Vec3
  targetPos : Vec3
  color : String
  scale : ℚ
  currentPos : Vec3
  chaosRotation : Vec3
  rotationSpeed : Vec3
deriving DecidableEq, Repr

/-- One entry of the FairyLights data pool. -/
structure FairyObj where
  chaosPos : Vec3
  targetPos : Vec3
  color : String
  speed : ℚ
  currentPos : Vec3
  timeOffset : ℚ
  normalizedHeight : ℚ
deriving DecidableEq, Repr

/-- The blend target selected each frame for a photo ornament:
targetPos when FORMED, chaosPos otherwise. -/
def photoTarget (mode : SceneMode) (o : PhotoObj) : Vec3 :=
  if mode = SceneMode.FORMED then o.targetPos else o.chaosPos

/-- The blend target selected each frame for a christmas element. -/
def elementsTarget (mode : SceneMode) (o : ElementsObj) : Vec3 :=
  if mode = SceneMode.FORMED then o.targetPos else o.chaosPos

/-- The blend target selected each frame for a fairy light. -/
def fairyTarget (mode : SceneMode) (o : FairyObj) : Vec3 :=
  if mode = SceneMode.FORMED then o.targetPos else o.chaosPos

/-- The per-frame update applied to a PhotoOrnaments record: only
currentPos is written (the evolving rotation lives on the scene-graph
group, not in the record). -/
def photoDataStep (mode : SceneMode) (δ : ℚ) (o : PhotoObj) : PhotoObj :=
  { o with currentPos := photoPosStep mode o.weight o.currentPos (photoTarget mode o) δ }

/-- The per-frame update applied to a ChristmasElements record. -/
def elementsDataStep (mode : SceneMode) (δ : ℚ) (o : ElementsObj) : ElementsObj :=
  { o with currentPos := elementsPosStep o.currentPos (elementsTarget mode o) δ }

/-- The per-frame update applied to a FairyLights record. -/
def fairyDataStep (mode : SceneMode) (δ : ℚ) (o : FairyObj) : FairyObj :=
  { o with currentPos := fairyPosStep o.currentPos (fairyTarget mode o) δ }

/-- GrandTreeApp: baseSpin = sceneState === CHAOS ? 0.03 : 0.01. -/
def baseSpin (mode : SceneMode) : ℚ :=
  if mode = SceneMode.CHAOS then 0.03 else 0.01

/-- GrandTreeApp handleMove: setRotationSpeed(baseSpin + speed). -/
def handleMove (mode : SceneMode) (speed : ℚ) : ℚ :=
  baseSpin mode + speed

/-- The rotation speed written by the effect that runs when baseSpin
changes: setRotationSpeed(baseSpin). -/
def spinAfterModeChange (mode : SceneMode) : ℚ :=
  baseSpin mode

/-- Experience useFrame: azimuthal angle advances by rotationSpeed. -/
def stepAzimuthal (angle speed : ℚ) : ℚ :=
  angle + speed

/-- FairyLights pulse term: (sin(time * speed + timeOffset) + 1) / 2. -/
noncomputable def fairyPulse (speed timeOffset tm : ℝ) : ℝ :=
  (Real.sin (tm * speed + timeOffset) + 1) / 2

/-- FairyLights height boost: 0.55 + (1 - normalizedHeight) * 0.9. -/
noncomputable def heightBoost (nh : ℝ) : ℝ :=
  0.55 + (1 - nh) * 0.9

/-- FairyLights emissive intensity: (3 + intensity * 4) * heightBoost when
FORMED, and 0 when CHAOS. -/
noncomputable def fairyEmissive (mode : SceneMode)
    (speed timeOffset nh tm : ℝ) : ℝ :=
  if mode = SceneMode.FORMED then
    (3 + fairyPulse speed timeOffset tm * 4) * heightBoost nh
  else 0

/-- The single allowed username of the login endpoint. -/
def ALLOWED_USERNAME : String := "Guandacol"

/-- JavaScript truthiness of an optional string field: absent and empty
strings are falsy. -/
def truthyString : Option String → Bool
  | none => false
  | some s => if s = "" then false else true

/-- The three ways the POST branch of the login handler can proceed before
any successful response: reject with 400, reject with 401 before touching
the credential store, or go on to consult the store for the given user. -/
inductive LoginStep
  | badRequest
  | invalidCredentials
  | consultStore (username : String)
deriving DecidableEq, Repr

/-- The guard sequence at the top of the POST branch of the login handler:
missing username or password yields 400; a username different from the
allowed one yields 401 before the credential store is consulted. -/
def loginGate (username password : Option String) : LoginStep :=
  if !truthyString username || !truthyString password then
    LoginStep.badRequest
  else if username.getD "" ≠ ALLOWED_USERNAME then
    LoginStep.invalidCredentials
  else
    LoginStep.consultStore (username.getD "")

/-- HTTP status of the two rejecting outcomes. -/
def rejectionStatus : LoginStep → Option Nat
  | LoginStep.badRequest => some 400
  | LoginStep.invalidCredentials => some 401
  | LoginStep.consultStore _ => none

/-- Error payload of the two rejecting outcomes. -/
def rejectionError : LoginStep → Option String
  | LoginStep.badRequest => some "username and password are required"
  | LoginStep.invalidCredentials => some "Invalid credentials"
  | LoginStep.consultStore _ => none

/-- Whether the outcome reaches the credential store. -/
def consultsStore : LoginStep → Bool
  | LoginStep.consultStore _ => true
  | _ => false

/-- Squared distance is never negative. -/
theorem distSq_nonneg (a b : Vec3) : 0 ≤ distSq a b := by
  unfold distSq
  positivity

/-- Squared distance vanishes exactly on equal vectors. -/
theorem distSq_eq_zero_iff (a b : Vec3) : distSq a b = 0 ↔ a = b := by
  unfold distSq
  constructor
  · intro h
    have hx : a.x = b.x := by
      nlinarith [sq_nonneg (a.x - b.x), sq_nonneg (a.y - b.y), sq_nonneg (a.z - b.z)]
    have hy : a.y = b.y := by
      nlinarith [sq_nonneg (a.x - b.x), sq_nonneg (a.y - b.y), sq_nonneg (a.z - b.z)]
    have hz : a.z = b.z := by
      nlinarith [sq_nonneg (a.x - b.x), sq_nonneg (a.y - b.y), sq_nonneg (a.z - b.z)]
    cases a
    cases b
    simp_all
  · intro h
    subst h
    ring

/-- Squared distance is positive between distinct vectors. -/
theorem distSq_pos (a b : Vec3) (h : a ≠ b) : 0 < distSq a b := by
  rcases lt_or_eq_of_le (distSq_nonneg a b) with hlt | heq
  · exact hlt
  · exact absurd ((distSq_eq_zero_iff a b).mp heq.symm) h

/-- The lerp update scales squared distance to the target by (1 - alpha)^2. -/
theorem lerp_distSq (c t : Vec3) (a : ℚ) :
    distSq (Vec3.lerp c t a) t = (1 - a) ^ 2 * distSq c t := by
  unfold Vec3.lerp distSq
  ring

/-- A lerp step with a strictly negative alpha moves any point not already
at the target strictly away from it. -/
theorem lerp_neg_alpha_increases (c t : Vec3) (a : ℚ) (ha : a < 0)
    (hne : c ≠ t) : distSq c t < distSq (Vec3.lerp c t a) t := by
  have hd := distSq_pos c t hne
  have hl := lerp_distSq c t a
  rw [hl]
  have key : (1 - a) ^ 2 * distSq c t - distSq c t =
      a * (a - 2) * distSq c t := by ring
  have hpos : 0 < a * (a - 2) * distSq c t :=
    mul_pos (mul_pos_of_neg_of_neg ha (by linarith)) hd
  linarith

/-- C2: when a qualifying Open_Palm or Closed_Fist gesture is active
(confidence strictly above 0.4), a previous tracked x and timestamp exist
and a landmark is present, the emitted rotation velocity equals
-(currentX - lastX) / max(now - lastTimestamp, 1) * 280, suppressed to
exactly 0 whenever its magnitude is at most 0.0002. -/
theorem gesture_velocity_formula (st : TrackState) (f : GestureFrame)
    (c : Classification) (rest : List Classification) (x : ℚ) (xs : List ℚ)
    (px pt : ℚ) (hg : f.gestures = c :: rest) (hq : Qualifies c)
    (hl : f.landmarkXs = x :: xs) (hx : st.lastX = some px)
    (ht : st.lastTimestamp = some pt) :
    (processFrame st f).move =
      some (if (0.0002 : ℚ) < |(-(x - px) / max (f.now - pt) 1 * 280)| then
              -(x - px) / max (f.now - pt) 1 * 280
            else 0) := by
  cases f with
  | mk gs ls fnow =>
    cases st with
    | mk lx lt =>
      simp only at hg hl hx ht
      subst hg hl hx ht
      simp [processFrame, hq, applyDeadzone, rawVelocity]

/-- Witness for C2: landmark x going from 0.50 to 0.40 over 16 ms under an
Open_Palm score of 0.9 yields velocity exactly 1.75. -/
theorem gesture_velocity_formula_witness :
    (processFrame ⟨some 0.5, some 0⟩
        ⟨[⟨"Open_Palm", 0.9⟩], [0.4], 16⟩).move = some 1.75 := by
  have h := gesture_velocity_formula ⟨some 0.5, some 0⟩
      ⟨[⟨"Open_Palm", 0.9⟩], [0.4], 16⟩ ⟨"Open_Palm", 0.9⟩ [] 0.4 [] 0.5 0
      rfl ⟨Or.inl rfl, by norm_num⟩ rfl rfl rfl
  rw [h]
  norm_num [abs_of_nonneg, max_def]

/-- C3: a classification whose label is open-palm or closed-fist produces a
mode command iff its confidence is strictly above 0.4 (exactly 0.4 yields
no command); a qualifying Open_Palm emits CHAOS, a qualifying Closed_Fist
emits FORMED; a frame whose first classification yields no command, or
with no classifications, emits no mode command, and an absent command
leaves the mode unchanged. -/
theorem mode_command_threshold (c : Classification) :
    ((c.categoryName = "Open_Palm" ∨ c.categoryName = "Closed_Fist") →
       ((modeCommandOf c).isSome ↔ (0.4 : ℚ) < c.score)) ∧
    ((0.4 : ℚ) < c.score → c.categoryName = "Open_Palm" →
       modeCommandOf c = some SceneMode.CHAOS) ∧
    ((0.4 : ℚ) < c.score → c.categoryName = "Closed_Fist" →
       modeCommandOf c = some SceneMode.FORMED) ∧
    (c.score = 0.4 → modeCommandOf c = none) ∧
    (∀ (st : TrackState) (f : GestureFrame) (rest : List Classification),
       f.gestures = c :: rest → modeCommandOf c = none →
       (processFrame st f).modeCommand = none) ∧
    (∀ (st : TrackState) (f : GestureFrame),
       f.gestures = [] → (processFrame st f).modeCommand = none) ∧
    (∀ m : SceneMode, applyCommand none m = m) := by
  refine ⟨?_, ?_, ?_, ?_, ?_, ?_, ?_⟩
  · intro hl
    rcases hl with h | h <;>
      by_cases hs : (0.4 : ℚ) < c.score <;>
        simp +decide [modeCommandOf, h, hs]
  · intro hs hl
    simp [modeCommandOf, hs, hl]
  · intro hs hl
    simp +decide [modeCommandOf, hs, hl]
  · intro h
    norm_num [modeCommandOf, h]
  · intro st f rest hg hnone
    cases f with
    | mk gs ls fnow =>
      simp only at hg
      subst hg
      cases ls with
      | nil => simp [processFrame, hnone]
      | cons a as =>
        rcases st with ⟨_ | px, _ | pt⟩
        · simp [processFrame, hnone]
        · simp [processFrame, hnone]
        · simp [processFrame, hnone]
        · simp only [processFrame]
          split_ifs <;> simp [hnone]
  · intro st f h
    cases f with
    | mk gs ls fnow =>
      simp only at h
      subst h
      simp [processFrame]
  · intro m
    rfl

/-- Witness for C3: confidence 0.41 qualifies (Open_Palm emits CHAOS,
Closed_Fist emits FORMED) while confidence exactly 0.4 yields no command. -/
theorem mode_command_threshold_witness :
    modeCommandOf ⟨"Open_Palm", 0.41⟩ = some SceneMode.CHAOS ∧
    modeCommandOf ⟨"Open_Palm", 0.4⟩ = none ∧
    modeCommandOf ⟨"Closed_Fist", 0.9⟩ = some SceneMode.FORMED :=
  ⟨(mode_command_threshold ⟨"Open_Palm", 0.41⟩).2.1 (by norm_num) rfl,
   (mode_command_threshold ⟨"Open_Palm", 0.4⟩).2.2.2.1 rfl,
   (mode_command_threshold ⟨"Closed_Fist", 0.9⟩).2.2.1 (by norm_num) rfl⟩

/-- C1 counterexample: a frame whose first classification does not qualify
(label Victory) but that carries landmarks does NOT reset the tracking
state — it stores the current x and timestamp — so the next qualifying
frame computes a nonzero velocity across the gap (here 1.75). -/
theorem gesture_reset_counterexample :
    (processFrame ⟨some 0.5, some 0⟩
        ⟨[⟨"Victory", 0.9⟩], [0.3], 16⟩).state.lastX = some 0.3 ∧
    (processFrame ⟨some 0.5, some 0⟩
        ⟨[⟨"Victory", 0.9⟩], [0.3], 16⟩).state.lastX ≠ none ∧
    (processFrame ⟨some 0.3, some 16⟩
        ⟨[⟨"Open_Palm", 0.9⟩], [0.2], 32⟩).move = some 1.75 := by
  refine ⟨?_, ?_, ?_⟩
  · simp +decide [processFrame, Qualifies]
  · simp +decide [processFrame, Qualifies]
  · rw [gesture_velocity_formula ⟨some 0.3, some 16⟩
      ⟨[⟨"Open_Palm", 0.9⟩], [0.2], 32⟩ ⟨"Open_Palm", 0.9⟩ [] 0.2 [] 0.3 16
      rfl ⟨Or.inl rfl, by norm_num⟩ rfl rfl rfl]
    norm_num [abs_of_nonneg, max_def]

/-- C1 (amended): the tracking state is reset to null, with velocity 0
emitted, only on frames with no gesture classifications at all. On a frame
whose first classification does not qualify but that has landmarks, the
processor emits velocity 0 yet overwrites lastX/lastTimestamp with the
current frame's values; on a frame with classifications but no landmarks
it emits no velocity and leaves the tracking state untouched. -/
theorem gesture_tracking_reset_amended (st : TrackState) (f : GestureFrame) :
    (f.gestures = [] →
       (processFrame st f).move = some 0 ∧
       (processFrame st f).state.lastX = none ∧
       (processFrame st f).state.lastTimestamp = none) ∧
    (∀ (c : Classification) (rest : List Classification) (x : ℚ) (xs : List ℚ),
       f.gestures = c :: rest → ¬ Qualifies c → f.landmarkXs = x :: xs →
       (processFrame st f).move = some 0 ∧
       (processFrame st f).state.lastX = some x ∧
       (processFrame st f).state.lastTimestamp = some f.now) ∧
    (∀ (c : Classification) (rest : List Classification),
       f.gestures = c :: rest → f.landmarkXs = [] →
       (processFrame st f).move = none ∧ (processFrame st f).state = st) := by
  refine ⟨?_, ?_, ?_⟩
  · intro h
    cases f with
    | mk gs ls fnow =>
      simp only at h
      subst h
      simp [processFrame]
  · intro c rest x xs hg hq hl
    cases f with
    | mk gs ls fnow =>
      simp only at hg hl
      subst hg hl
      rcases st with ⟨_ | px, _ | pt⟩ <;> simp [processFrame, hq]
  · intro c rest hg hl
    cases f with
    | mk gs ls fnow =>
      simp only at hg hl
      subst hg hl
      simp [processFrame]

/-- Witness for C1 (amended): a frame with no classifications after a
tracked sequence emits velocity 0 and clears the stored x-coordinate. -/
theorem gesture_tracking_reset_amended_witness :
    (processFrame ⟨some 0.5, some 0⟩ ⟨[], [], 16⟩).move = some 0 ∧
    (processFrame ⟨some 0.5, some 0⟩ ⟨[], [], 16⟩).state.lastX = none := by
  have h := (gesture_tracking_reset_amended ⟨some 0.5, some 0⟩ ⟨[], [], 16⟩).1 rfl
  exact ⟨h.1, h.2.1⟩

/-- C4 counterexample: THREE.Vector3.lerp does not clamp alpha, so a blend
update with dt = 2 at the fairy-light rate 2.0 (alpha = 4) overshoots and
strictly increases the distance to the target, refuting strict decrease
for every dt above 0. -/
theorem blend_overshoot_counterexample :
    (0 : ℚ) < 2 ∧
    distSq ⟨0, 0, 0⟩ ⟨1, 0, 0⟩ <
      distSq (fairyPosStep ⟨0, 0, 0⟩ ⟨1, 0, 0⟩ 2) ⟨1, 0, 0⟩ := by
  constructor
  · norm_num
  · norm_num [distSq, fairyPosStep, Vec3.lerp]

/-- C4 (amended): a blend update whose factor rate * dt lies strictly
between 0 and 2, applied to an object not already at its target, strictly
decreases the squared distance to the target, and that squared distance
never becomes negative; for rate * dt at 2 or above the update can
overshoot and increase the distance. -/
theorem blend_strict_decrease (c t : Vec3) (rate δ : ℚ)
    (h0 : 0 < rate * δ) (h2 : rate * δ < 2) (hne : c ≠ t) :
    distSq (Vec3.lerp c t (rate * δ)) t < distSq c t ∧
    0 ≤ distSq (Vec3.lerp c t (rate * δ)) t := by
  have hd := distSq_pos c t hne
  have hl := lerp_distSq c t (rate * δ)
  constructor
  · rw [hl]
    have key : distSq c t - (1 - rate * δ) ^ 2 * distSq c t =
        (rate * δ) * (2 - rate * δ) * distSq c t := by ring
    have hpos : 0 < (rate * δ) * (2 - rate * δ) * distSq c t :=
      mul_pos (mul_pos h0 (by linarith)) hd
    linarith
  · rw [hl]
    positivity

/-- Witness for C4 (amended): one ChristmasElements blend step at rate 1.5
with dt = 1/2 strictly shrinks the squared distance to the target. -/
theorem blend_strict_decrease_witness :
    distSq (Vec3.lerp ⟨0, 0, 0⟩ ⟨1, 0, 0⟩ ((1.5 : ℚ) * (1 / 2))) ⟨1, 0, 0⟩ <
      distSq ⟨0, 0, 0⟩ ⟨1, 0, 0⟩ :=
  (blend_strict_decrease ⟨0, 0, 0⟩ ⟨1, 0, 0⟩ 1.5 (1 / 2) (by norm_num)
    (by norm_num) (by simp +decide)).1

/-- C5 counterexample: no dt clamp exists — a ChristmasElements blend step
invoked with dt = -1 moves the object strictly away from its target. -/
theorem negative_dt_counterexample :
    distSq ⟨0, 0, 0⟩ ⟨1, 0, 0⟩ <
      distSq (elementsPosStep ⟨0, 0, 0⟩ ⟨1, 0, 0⟩ (-1)) ⟨1, 0, 0⟩ := by
  norm_num [distSq, elementsPosStep, Vec3.lerp]

/-- C5 (amended): the animator applies no clamp to dt and its position
blend contains no division, so no division by zero can occur for any dt;
a dt of exactly 0 leaves every position unchanged in all three per-object
pooled classes, but a strictly negative dt moves any object of any of the
three classes that is not already at its target strictly away from it
(for photo ornaments, given their positive blend weight). -/
theorem dt_edge_behavior (c t : Vec3) (δ w : ℚ) (m : SceneMode) :
    photoPosStep m w c t 0 = c ∧
    elementsPosStep c t 0 = c ∧
    fairyPosStep c t 0 = c ∧
    (δ < 0 → c ≠ t → 0 < w →
       distSq c t < distSq (photoPosStep m w c t δ) t) ∧
    (δ < 0 → c ≠ t → distSq c t < distSq (elementsPosStep c t δ) t) ∧
    (δ < 0 → c ≠ t → distSq c t < distSq (fairyPosStep c t δ) t) := by
  refine ⟨?_, ?_, ?_, ?_, ?_, ?_⟩
  · cases c
    simp [photoPosStep, Vec3.lerp]
  · cases c
    simp [elementsPosStep, Vec3.lerp]
  · cases c
    simp [fairyPosStep, Vec3.lerp]
  · intro hδ hne hw
    have hrate : 0 < photoRate m w := by
      unfold photoRate
      split_ifs
      · exact mul_pos (by norm_num) hw
      · norm_num
    exact lerp_neg_alpha_increases c t (δ * photoRate m w)
      (mul_neg_of_neg_of_pos hδ hrate) hne
  · intro hδ hne
    exact lerp_neg_alpha_increases c t (δ * 1.5)
      (mul_neg_of_neg_of_pos hδ (by norm_num)) hne
  · intro hδ hne
    exact lerp_neg_alpha_increases c t (δ * 2.0)
      (mul_neg_of_neg_of_pos hδ (by norm_num)) hne

/-- Witness for C5 (amended): a zero dt leaves an element in place, and a
dt of -1 strictly increases the squared distance to the target for a
photo ornament (FORMED, weight 1), a christmas element and a fairy light. -/
theorem dt_edge_behavior_witness :
    elementsPosStep ⟨0, 0, 0⟩ ⟨1, 0, 0⟩ 0 = ⟨0, 0, 0⟩ ∧
    distSq ⟨0, 0, 0⟩ ⟨1, 0, 0⟩ <
      distSq (photoPosStep SceneMode.FORMED 1 ⟨0, 0, 0⟩ ⟨1, 0, 0⟩ (-1)) ⟨1, 0, 0⟩ ∧
    distSq ⟨0, 0, 0⟩ ⟨1, 0, 0⟩ <
      distSq (elementsPosStep ⟨0, 0, 0⟩ ⟨1, 0, 0⟩ (-1)) ⟨1, 0, 0⟩ ∧
    distSq ⟨0, 0, 0⟩ ⟨1, 0, 0⟩ <
      distSq (fairyPosStep ⟨0, 0, 0⟩ ⟨1, 0, 0⟩ (-1)) ⟨1, 0, 0⟩ :=
  ⟨(dt_edge_behavior ⟨0, 0, 0⟩ ⟨1, 0, 0⟩ (-1) 1 SceneMode.CHAOS).2.1,
   (dt_edge_behavior ⟨0, 0, 0⟩ ⟨1, 0, 0⟩ (-1) 1 SceneMode.FORMED).2.2.2.1
     (by norm_num) (by simp +decide) (by norm_num),
   (dt_edge_behavior ⟨0, 0, 0⟩ ⟨1, 0, 0⟩ (-1) 1 SceneMode.CHAOS).2.2.2.2.1
     (by norm_num) (by simp +decide),
   (dt_edge_behavior ⟨0, 0, 0⟩ ⟨1, 0, 0⟩ (-1) 1 SceneMode.CHAOS).2.2.2.2.2
     (by norm_num) (by simp +decide)⟩

/-- C6: the formed-distribution local radius at normalized height t equals
R * (1 - t), is non-increasing in t, and is 0 at the apex t = 1; the
normalized height of a sampled y is exactly the height draw, and the
sampled radius of the volume-filling class lies between 0 and the local
radius. -/
theorem tree_radius_taper :
    (∀ t1 t2 : ℚ, t1 ≤ t2 → coneRadius t2 ≤ coneRadius t1) ∧
    coneRadius 1 = 0 ∧
    (∀ u1 : ℚ, treeNormalizedY u1 = u1) ∧
    (∀ u1 u3 : ℚ, 0 ≤ u1 → u1 ≤ 1 → 0 ≤ u3 → u3 < 1 →
       0 ≤ treeSampledRadius u1 u3 ∧
       treeSampledRadius u1 u3 ≤ treeLocalRadius u1) := by
  have hnorm : ∀ u1 : ℚ, treeNormalizedY u1 = u1 := by
    intro u1
    unfold treeNormalizedY treeY treeHeight
    ring
  refine ⟨?_, ?_, hnorm, ?_⟩
  · intro t1 t2 h
    unfold coneRadius treeRadius
    linarith
  · norm_num [coneRadius, treeRadius]
  · intro u1 u3 h0 h1 h3 h4
    have hloc : treeLocalRadius u1 = treeRadius * (1 - u1) := by
      unfold treeLocalRadius
      rw [hnorm]
      rfl
    have hradpos : 0 ≤ treeRadius * (1 - u1) := by
      unfold treeRadius
      nlinarith
    constructor
    · unfold treeSampledRadius
      rw [hloc]
      exact mul_nonneg h3 hradpos
    · unfold treeSampledRadius
      rw [hloc]
      nlinarith

/-- Witness for C6: at height draw 1/2 the sampled radius with draw 1/2
lands inside [0, local radius], and the taper shrinks between 0 and 1/2. -/
theorem tree_radius_taper_witness :
    coneRadius (1 / 2) ≤ coneRadius 0 ∧
    treeNormalizedY (1 / 2) = (1 / 2 : ℚ) ∧
    (0 ≤ treeSampledRadius (1 / 2) (1 / 2) ∧
     treeSampledRadius (1 / 2) (1 / 2) ≤ treeLocalRadius (1 / 2)) :=
  ⟨tree_radius_taper.1 0 (1 / 2) (by norm_num),
   tree_radius_taper.2.2.1 (1 / 2),
   tree_radius_taper.2.2.2 (1 / 2) (1 / 2) (by norm_num) (by norm_num)
     (by norm_num) (by norm_num)⟩

/-- C7: a fairy light's emissive intensity is forced to exactly 0 whenever
the mode is CHAOS; when FORMED it equals a periodic pulse of elapsed time
(with per-object phase and speed) multiplied by a height boost that is
strictly larger for objects lower in the cone. -/
theorem fairy_emissive_spec :
    (∀ speed timeOffset nh tm : ℝ,
       fairyEmissive SceneMode.CHAOS speed timeOffset nh tm = 0) ∧
    (∀ speed timeOffset nh tm : ℝ,
       fairyEmissive SceneMode.FORMED speed timeOffset nh tm =
         (3 + fairyPulse speed timeOffset tm * 4) * heightBoost nh) ∧
    (∀ speed timeOffset tm : ℝ, speed ≠ 0 →
       fairyPulse speed timeOffset (tm + 2 * Real.pi / speed) =
         fairyPulse speed timeOffset tm) ∧
    (∀ h1 h2 : ℝ, h1 < h2 → heightBoost h2 < heightBoost h1) := by
  refine ⟨?_, ?_, ?_, ?_⟩
  · intro speed timeOffset nh tm
    simp [fairyEmissive]
  · intro speed timeOffset nh tm
    simp [fairyEmissive]
  · intro speed timeOffset tm hs
    unfold fairyPulse
    have harg : (tm + 2 * Real.pi / speed) * speed + timeOffset =
        tm * speed + timeOffset + 2 * Real.pi := by
      field_simp
      ring
    rw [harg, Real.sin_add_two_pi]
  · intro h1 h2 h
    unfold heightBoost
    nlinarith

/-- Witness for C7: at unit speed the pulse repeats after 2π, and the
height boost at the base exceeds the boost at the apex. -/
theorem fairy_emissive_spec_witness :
    fairyEmissive SceneMode.CHAOS 1 0 0 0 = 0 ∧
    fairyPulse 1 0 (0 + 2 * Real.pi / 1) = fairyPulse 1 0 0 ∧
    heightBoost 1 < heightBoost 0 :=
  ⟨fairy_emissive_spec.1 1 0 0 0,
   fairy_emissive_spec.2.2.1 1 0 0 one_ne_zero,
   fairy_emissive_spec.2.2.2 0 1 one_pos⟩

/-- C8: the per-frame data update of each pooled class rewrites only
currentPos — the scattered and formed targets and the other
generation-time attributes are never recomputed — and issuing the same
mode command repeatedly is idempotent on the mode and leaves the selected
blend target unchanged. -/
theorem pool_targets_immutable :
    (∀ (mode : SceneMode) (δ : ℚ) (o : PhotoObj),
       (photoDataStep mode δ o).chaosPos = o.chaosPos ∧
       (photoDataStep mode δ o).targetPos = o.targetPos ∧
       (photoDataStep mode δ o).weight = o.weight ∧
       (photoDataStep mode δ o).scale = o.scale ∧
       (photoDataStep mode δ o).rotationSpeed = o.rotationSpeed) ∧
    (∀ (mode : SceneMode) (δ : ℚ) (o : ElementsObj),
       (elementsDataStep mode δ o).chaosPos = o.chaosPos ∧
       (elementsDataStep mode δ o).targetPos = o.targetPos ∧
       (elementsDataStep mode δ o).rotationSpeed = o.rotationSpeed) ∧
    (∀ (mode : SceneMode) (δ : ℚ) (o : FairyObj),
       (fairyDataStep mode δ o).chaosPos = o.chaosPos ∧
       (fairyDataStep mode δ o).targetPos = o.targetPos ∧
       (fairyDataStep mode δ o).normalizedHeight = o.normalizedHeight) ∧
    (∀ m s : SceneMode,
       applyCommand (some m) (applyCommand (some m) s) = applyCommand (some m) s) ∧
    (∀ (m s : SceneMode) (o : PhotoObj),
       photoTarget (applyCommand (some m) s) o = photoTarget m o) := by
  refine ⟨?_, ?_, ?_, ?_, ?_⟩
  · intro mode δ o
    exact ⟨rfl, rfl, rfl, rfl, rfl⟩
  · intro mode δ o
    exact ⟨rfl, rfl, rfl⟩
  · intro mode δ o
    exact ⟨rfl, rfl, rfl⟩
  · intro m s
    rfl
  · intro m s o
    rfl

/-- Witness for C8: one FORMED-mode photo step leaves the stored targets of
a concrete pool entry untouched. -/
theorem pool_targets_immutable_witness :
    (photoDataStep SceneMode.FORMED 1
        ⟨⟨0, 0, 0⟩, ⟨1, 2, 3⟩, 1, 1, 0, "#FFFAF0", ⟨0, 0, 0⟩, ⟨0, 0, 0⟩,
          ⟨0, 0, 0⟩, 0, 1⟩).targetPos = ⟨1, 2, 3⟩ :=
  (pool_targets_immutable.1 SceneMode.FORMED 1
    ⟨⟨0, 0, 0⟩, ⟨1, 2, 3⟩, 1, 1, 0, "#FFFAF0", ⟨0, 0, 0⟩, ⟨0, 0, 0⟩,
      ⟨0, 0, 0⟩, 0, 1⟩).2.1

/-- C9: the camera rotation speed applied each frame is the mode-dependent
base auto-spin (0.03 in CHAOS, 0.01 in FORMED) plus the most recent
gesture velocity; a gesture velocity of 0 leaves the nonzero base spin,
and a mode change alone resets the applied speed to the new base spin. -/
theorem rotation_speed_composition :
    baseSpin SceneMode.CHAOS = 0.03 ∧
    baseSpin SceneMode.FORMED = 0.01 ∧
    (∀ (m : SceneMode) (v : ℚ), handleMove m v = baseSpin m + v) ∧
    (∀ m : SceneMode, handleMove m 0 = baseSpin m ∧ baseSpin m ≠ 0) ∧
    (∀ m : SceneMode, spinAfterModeChange m = baseSpin m) ∧
    (∀ a v : ℚ, stepAzimuthal a v = a + v) := by
  refine ⟨rfl, rfl, ?_, ?_, ?_, ?_⟩
  · intro m v
    rfl
  · intro m
    refine ⟨by unfold handleMove; ring, ?_⟩
    cases m
    · rw [show baseSpin SceneMode.CHAOS = 0.03 from rfl]
      norm_num
    · rw [show baseSpin SceneMode.FORMED = 0.01 from rfl]
      norm_num
  · intro m
    rfl
  · intro a v
    rfl

/-- Witness for C9: in CHAOS mode a zero gesture velocity leaves the
0.03 base auto-spin. -/
theorem rotation_speed_composition_witness :
    handleMove SceneMode.CHAOS 0 = baseSpin SceneMode.CHAOS ∧
    baseSpin SceneMode.CHAOS ≠ 0 :=
  rotation_speed_composition.2.2.2.1 SceneMode.CHAOS

/-- C10: a POST whose username is present, nonempty and different from the
hardcoded allowed username is rejected with 401 and error message
Invalid credentials whatever the password, without consulting the
credential store; a request missing username or password is rejected
with 400. -/
theorem login_gate_spec (u p : String) (hu : u ≠ "") (hp : p ≠ "")
    (hdiff : u ≠ ALLOWED_USERNAME) :
    loginGate (some u) (some p) = LoginStep.invalidCredentials ∧
    rejectionStatus (loginGate (some u) (some p)) = some 401 ∧
    rejectionError (loginGate (some u) (some p)) = some "Invalid credentials" ∧
    consultsStore (loginGate (some u) (some p)) = false ∧
    (∀ q : Option String,
       loginGate none q = LoginStep.badRequest ∧
       rejectionStatus (loginGate none q) = some 400) ∧
    (∀ q : Option String,
       loginGate q none = LoginStep.badRequest ∧
       rejectionStatus (loginGate q none) = some 400) := by
  have hgate : loginGate (some u) (some p) = LoginStep.invalidCredentials := by
    have hcond : (!truthyString (some u) || !truthyString (some p)) = false := by
      simp [truthyString, hu, hp]
    unfold loginGate
    rw [hcond]
    simp [hdiff]
  refine ⟨hgate, ?_, ?_, ?_, ?_, ?_⟩
  · rw [hgate]
    rfl
  · rw [hgate]
    rfl
  · rw [hgate]
    rfl
  · intro q
    constructor <;> rfl
  · intro q
    have hq : loginGate q none = LoginStep.badRequest := by
      unfold loginGate truthyString
      simp
    refine ⟨hq, ?_⟩
    rw [hq]
    rfl

/-- Witness for C10: the username Mallory with a nonempty password is
turned away with 401 before the store is reached. -/
theorem login_gate_spec_witness :
    loginGate (some "Mallory") (some "hunter2") = LoginStep.invalidCredentials ∧
    rejectionStatus (loginGate (some "Mallory") (some "hunter2")) = some 401 ∧
    consultsStore (loginGate (some "Mallory") (some "hunter2")) = false := by
  have h := login_gate_spec "Mallory" "hunter2" (by decide) (by decide) (by decide)
  exact ⟨h.1, h.2.1, h.2.2.2.1⟩
